import Mathlib

/-!
Shallow embedding of `src/FmpConnector.py` (the `FmpConnector` class): a thin
client over the financialmodelingprep.com HTTP API.  Python dataframes are
modelled by an explicit `DataFrame` structure, JSON bodies by a `Json`
inductive, the HTTP transport by a function from URL to response (so that a
run can be instrumented: each operation returns its result together with the
list of URLs it requested and the list of messages it printed), and Python
exceptions by `Except PyError`.  ISO `yyyy-MM-dd` date strings are kept as
strings: their lexicographic order coincides with chronological order, which
is what pandas label slicing on a parsed datetime index uses.
-/

namespace Fmp

/-- Scalar cell values of a dataframe (Python scalars). -/
inductive Value where
  | null
  | str (s : String)
  | num (q : Rat)
  | bool (b : Bool)
deriving DecidableEq, Repr

/-- JSON values, as returned by `response.json()` in the source. -/
inductive Json where
  | null
  | str (s : String)
  | num (q : Rat)
  | bool (b : Bool)
  | arr (xs : List Json)
  | obj (fields : List (String × Json))

/-- Python exceptions that the source can raise or catch. -/
inductive PyError where
  | keyError (k : Value)
  | valueError
  | typeError
  | indexError
  | connectionError
  | jsonDecodeError
deriving DecidableEq, Repr

/-- An HTTP response: a status code and, when the body is valid JSON, its
parsed form (`none` models a body on which `.json()` raises). -/
structure Response where
  status : Nat
  jsonBody : Option Json

/-- The transport underlying `requests.get`: maps a URL to a response, or to a
transport-level exception (connection error, timeout, ...). -/
def Transport : Type := String → Except PyError Response

/-- Observable `print` events of the source, one constructor per print site.
Each `invalid...` event corresponds to the source's message reporting the
given invalid selector together with the list of valid options; `rawData`
corresponds to `print(data)` on an unparseable body; `connected` and
`responseBody` to the two prints of the constructor probe. -/
inductive PrintEvent where
  | invalidInfoType (given : String)
  | invalidReportType (given : String)
  | invalidPeriod (given : String)
  | invalidAssetType (given : String)
  | invalidMarketType (given : String)
  | invalidChartType (given : String)
  | rawData (data : Json)
  | connected
  | responseBody (j : Json)

/-- A dataframe: row labels (`index`), column labels, row-major cells, and the
out-of-band `attrs` metadata dictionary. -/
structure DataFrame where
  index : List Value
  columns : List Value
  rows : List (List Value)
  attrs : List (String × Value)
deriving DecidableEq, Repr

/-- The fresh empty dataframe `pd.DataFrame()`. -/
def DataFrame.empty : DataFrame := ⟨[], [], [], []⟩

/-- Values a method of the source can return: a dataframe, a Python int
(the `return 0` error paths), Python `None`, or the bare `pd.DataFrame`
class object (the `df=pd.DataFrame` initialisations without parentheses in
`get_instruments` and `get_market_news`). -/
inductive PyVal where
  | table (df : DataFrame)
  | int (n : Int)
  | pynone
  | dfClass
deriving DecidableEq, Repr

/-- Whether a returned value is a dataframe at all. -/
def PyVal.isTable : PyVal → Bool
  | .table _ => true
  | _ => false

/-- Whether a returned value is a dataframe with no rows. -/
def PyVal.isEmptyTable : PyVal → Bool
  | .table df => df.rows.isEmpty
  | _ => false

/-- A JSON leaf converted to a dataframe cell (nested arrays/objects do not
occur in the responses the claims exercise; they are mapped to `null`). -/
def jsonScalar : Json → Value
  | .null => .null
  | .str s => .str s
  | .num q => .num q
  | .bool b => .bool b
  | .arr _ => .null
  | .obj _ => .null

/-- Whether a JSON value is a scalar (not an array or object). -/
def Json.isScalar : Json → Bool
  | .arr _ => false
  | .obj _ => false
  | _ => true

/-- Column keys of a list of JSON records, in order of first appearance
(pandas' column order for `from_dict` on a list of dicts). -/
def recordKeys (records : List (List (String × Json))) : List String :=
  records.foldl (fun acc r =>
    acc ++ ((r.map Prod.fst).filter (fun k => !(acc.contains k)))) []

/-- Row of cells of one JSON record under the given column keys; a missing
key yields a null cell (pandas fills NaN). -/
def recordRow (keys : List String) (r : List (String × Json)) : List Value :=
  keys.map (fun k => match r.lookup k with
    | some j => jsonScalar j
    | none => .null)

/-- The default `RangeIndex 0..n-1` pandas gives a freshly built frame. -/
def rangeIndex (n : Nat) : List Value :=
  (List.range n).map (fun i => .num i)

/-- Model of `pd.DataFrame.from_dict(data)`.  `None` and the empty dict give
an empty frame; a list of JSON objects gives a record frame; a list of
scalars gives a single column labelled by the integer `0`; a dict of scalars
raises `ValueError` (pandas: "If using all scalar values, you must pass an
index"); a dict of dicts builds a frame whose columns are the outer keys and
whose index is the union of the inner key sets, in order of first appearance
(the claims only exercise single-entry objects, where this coincides with
pandas); a dict whose values are equal-length arrays gives a column frame;
any other shape raises `ValueError` (pandas: "DataFrame constructor not
properly called!"). -/
def fromDict : Json → Except PyError DataFrame
  | .null => .ok DataFrame.empty
  | .arr xs =>
      if xs.all (fun x => match x with | .obj _ => true | _ => false) then
        let records := xs.map (fun x => match x with | .obj fs => fs | _ => [])
        let keys := recordKeys records
        .ok ⟨rangeIndex records.length, keys.map Value.str,
             records.map (recordRow keys), []⟩
      else if xs.all Json.isScalar then
        .ok ⟨rangeIndex xs.length, [.num 0], xs.map (fun x => [jsonScalar x]), []⟩
      else .error .valueError
  | .obj fields =>
      match fields with
      | [] => .ok DataFrame.empty
      | f0 :: _ =>
        if fields.all (fun f => f.2.isScalar) then .error .valueError
        else if fields.all (fun f => match f.2 with
            | .obj _ => true | _ => false) then
          let inners := fields.map (fun f => match f.2 with
            | .obj inner => inner | _ => [])
          let idxKeys := recordKeys inners
          .ok ⟨idxKeys.map Value.str, fields.map (fun f => .str f.1),
               idxKeys.map (fun k =>
                 inners.map (fun inner =>
                   match inner.lookup k with
                   | some j => jsonScalar j
                   | none => .null)), []⟩
        else
          match f0.2 with
          | .arr col0 =>
            if fields.all (fun f => match f.2 with
                | .arr c => c.length == col0.length
                | _ => false) then
              .ok ⟨rangeIndex col0.length, fields.map (fun f => .str f.1),
                   (List.range col0.length).map (fun i =>
                     fields.map (fun f => match f.2 with
                       | .arr c => jsonScalar (c.getD i .null)
                       | _ => .null)), []⟩
            else .error .valueError
          | _ => .error .valueError
  | _ => .error .valueError

/-- Model of Python `data[key]` on a JSON value: key lookup on an object
(`KeyError` when absent), `TypeError` on anything else. -/
def jsonGet (j : Json) (key : String) : Except PyError Json :=
  match j with
  | .obj fields =>
      match fields.lookup key with
      | some v => .ok v
      | none => .error (.keyError (.str key))
  | _ => .error .typeError

/-- Position of a column label in a frame. -/
def DataFrame.colIdx (df : DataFrame) (c : Value) : Option Nat :=
  df.columns.findIdx? (fun x => x == c)

/-- Model of `df[c]` (column read): the column's cells, or `KeyError`. -/
def DataFrame.getCol (df : DataFrame) (c : Value) : Except PyError (List Value) :=
  match df.colIdx c with
  | some i => .ok (df.rows.map (fun r => r.getD i .null))
  | none => .error (.keyError c)

/-- Model of `df[c] = vals` (column write): overwrite an existing column, or
append a new one. -/
def DataFrame.setCol (df : DataFrame) (c : Value) (vals : List Value) : DataFrame :=
  match df.colIdx c with
  | some i => ⟨df.index, df.columns,
      (df.rows.zip vals).map (fun p => p.1.set i p.2), df.attrs⟩
  | none => ⟨df.index, df.columns ++ [c],
      (df.rows.zip vals).map (fun p => p.1 ++ [p.2]), df.attrs⟩

/-- Model of `df.set_index(c)`: the column's cells become the row labels and
the column is removed (callers of the model only reach it when the column
exists). -/
def DataFrame.set_index (df : DataFrame) (c : Value) : DataFrame :=
  match df.colIdx c with
  | some i => ⟨df.rows.map (fun r => r.getD i .null),
      (df.columns.take i) ++ (df.columns.drop (i + 1)),
      df.rows.map (fun r => (r.take i) ++ (r.drop (i + 1))), df.attrs⟩
  | none => df

/-- Model of `df.T`: labels swap roles and the cell matrix is transposed. -/
def DataFrame.transpose (df : DataFrame) : DataFrame :=
  ⟨df.columns, df.index,
   (List.range df.columns.length).map (fun j =>
     df.rows.map (fun r => r.getD j .null)), df.attrs⟩

/-- Model of `df.rename(columns={0:'info'})`: the column labelled by the
integer `0`, when present, is renamed to `'info'`. -/
def renameZeroInfo (df : DataFrame) : DataFrame :=
  ⟨df.index, df.columns.map (fun c => if c = .num 0 then .str "info" else c),
   df.rows, df.attrs⟩

/-- Model of `df.attrs[k] = v`. -/
def DataFrame.attrsSet (df : DataFrame) (k : String) (v : Value) : DataFrame :=
  ⟨df.index, df.columns, df.rows,
   (df.attrs.filter (fun p => p.1 ≠ k)) ++ [(k, v)]⟩

/-- Model of `pd.to_datetime` on a cell: an ISO `yyyy-MM-dd` string stands
for the timestamp it parses to (lexicographic order on such strings is
chronological order), so the cell is kept as is. -/
def toDatetime (v : Value) : Value := v

/-- The client object: it holds the one credential (`self.apikey`). -/
structure Client where
  apikey : String
deriving DecidableEq, Repr

/-- Instrumented outcome of a fetch method: its return value (or the Python
exception it propagates), the URLs it requested in order, and what it
printed. -/
structure FetchOut where
  result : Except PyError PyVal
  requests : List String
  prints : List PrintEvent

/-- Instrumented outcome of the constructor. -/
structure InitOut where
  result : Except PyError Client
  requests : List String
  prints : List PrintEvent

/-- Every URL of the source ends in `apikey={self.apikey}`; this helper makes
that suffix explicit. -/
def withKey (pre : String) (key : String) : String := pre ++ "apikey=" ++ key

/-- Outcome of the response-shaping part of a fetch method: the value to
return (or exception to propagate) and the prints it performed. -/
def FetchStep : Type := Except PyError PyVal × List PrintEvent

/-- The request pattern shared by every fetch method of the source: issue the
single GET on `endpoint`, propagate a transport failure, propagate a
`.json()` decoding failure, and otherwise hand the parsed body to the
method's shaping code. -/
def runFetch (t : Transport) (endpoint : String) (onData : Json → FetchStep) :
    FetchOut :=
  match t endpoint with
  | .error e => ⟨.error e, [endpoint], []⟩
  | .ok resp =>
    match resp.jsonBody with
    | none => ⟨.error .jsonDecodeError, [endpoint], []⟩
    | some data => ⟨(onData data).1, [endpoint], (onData data).2⟩

/-- The constructor's probe endpoint
`https://financialmodelingprep.com/api/v3/profile/AAPL?apikey={apikey}`. -/
def probeUrl (apikey : String) : String :=
  withKey "https://financialmodelingprep.com/api/v3/profile/AAPL?" apikey

/-- Model of `FmpConnector.__init__`: stores the credential, issues the probe
request and prints the outcome.  There is no exception handler in the source,
so a transport-level failure, or a `.json()` failure on a non-200 response,
propagates out of construction. -/
def init (apikey : String) (t : Transport) : InitOut :=
  let test_endpoint := probeUrl apikey
  match t test_endpoint with
  | .error e => ⟨.error e, [test_endpoint], []⟩
  | .ok resp =>
      if resp.status = 200 then ⟨.ok ⟨apikey⟩, [test_endpoint], [.connected]⟩
      else
        match resp.jsonBody with
        | some j => ⟨.ok ⟨apikey⟩, [test_endpoint], [.responseBody j]⟩
        | none => ⟨.error .jsonDecodeError, [test_endpoint], []⟩

/-- The `company_info_dict` of `get_company_info`, keyed URL templates. -/
def company_info_dict (apikey symbol : String) (limit : Int) :
    List (String × String) :=
  [("company_profile",
    withKey ("https://financialmodelingprep.com/api/v3/profile/" ++ symbol
      ++ "?") apikey),
   ("company_rating",
    withKey ("https://financialmodelingprep.com/api/v3/rating/" ++ symbol
      ++ "?") apikey),
   ("historical_rating",
    withKey ("https://financialmodelingprep.com/api/v3/historical-rating/"
      ++ symbol ++ "?limit=" ++ toString limit ++ "&") apikey),
   ("recommendations",
    withKey ("https://financialmodelingprep.com/api/v3/analyst-stock-recommendations/"
      ++ symbol ++ "?limit=" ++ toString limit ++ "&") apikey)]

/-- The response-shaping `try` block of `get_company_info`: info types other
than `historical_rating`/`recommendations` are transposed and the `0` column
renamed to `info`. -/
def companyShape (info_type : String) (data : Json) : Except PyError DataFrame :=
  if info_type ∉ (["historical_rating", "recommendations"] : List String) then
    (fromDict data).map (fun df => renameZeroInfo df.transpose)
  else fromDict data

/-- Model of `get_company_info`.  An unknown `info_type` raises `KeyError` at
the dictionary lookup, which is caught before any request; `data` stays
`None` and `from_dict(None)` yields an empty frame.  A `ValueError` while
shaping is caught, the raw body is printed and the initial empty frame is
returned. -/
def get_company_info (c : Client) (t : Transport) (symbol : String)
    (limit : Int) (info_type : String) : FetchOut :=
  match (company_info_dict c.apikey symbol limit).lookup info_type with
  | none =>
      match companyShape info_type Json.null with
      | .ok df => ⟨.ok (.table df), [], [.invalidInfoType info_type]⟩
      | .error _ =>
          ⟨.ok (.table DataFrame.empty), [],
           [.invalidInfoType info_type, .rawData Json.null]⟩
  | some endpoint =>
      runFetch t endpoint (fun data =>
        match companyShape info_type data with
        | .ok df => (.ok (.table df), [])
        | .error _ => (.ok (.table DataFrame.empty), [.rawData data]))

/-- The `report_type_dict` of `get_financial_data`: for each report type the
plain template and (except `full_statement`) the as-reported template. -/
def report_type_dict (apikey symbol period : String) (limit : Int) :
    List (String × List String) :=
  [("balance_statement",
    [withKey ("https://financialmodelingprep.com/api/v3/balance-sheet-statement/"
       ++ symbol ++ "?period=" ++ period ++ "&limit=" ++ toString limit ++ "&") apikey,
     withKey ("https://financialmodelingprep.com/api/v3/balance-sheet-statement-as-reported/"
       ++ symbol ++ "?period=" ++ period ++ "&limit=" ++ toString limit ++ "&") apikey]),
   ("income_statement",
    [withKey ("https://financialmodelingprep.com/api/v3/income-statement/"
       ++ symbol ++ "?period=" ++ period ++ "&limit=" ++ toString limit ++ "&") apikey,
     withKey ("https://financialmodelingprep.com/api/v3/income-statement-as-reported/"
       ++ symbol ++ "?period=" ++ period ++ "&limit=" ++ toString limit ++ "&") apikey]),
   ("cashflow_statement",
    [withKey ("https://financialmodelingprep.com/api/v3/cash-flow-statement/"
       ++ symbol ++ "?period=" ++ period ++ "&limit=" ++ toString limit ++ "&") apikey,
     withKey ("https://financialmodelingprep.com/api/v3/cash-flow-statement-as-reported/"
       ++ symbol ++ "?period=" ++ period ++ "&limit=" ++ toString limit ++ "&") apikey]),
   ("full_statement",
    [withKey ("https://financialmodelingprep.com/api/v3/financial-statement-full-as-reported/"
       ++ symbol ++ "?period=" ++ period ++ "&limit=" ++ toString limit ++ "&") apikey])]

/-- Model of `get_financial_data`.  An invalid period prints the options and
returns the Python integer `0`; an unknown report type raises `KeyError` at
the dictionary lookup, caught before any request, and the empty frame is
returned; `as_reported` selects the second template except for
`full_statement`. -/
def get_financial_data (c : Client) (t : Transport) (symbol report_type period : String)
    (limit : Int) (as_reported : Bool) : FetchOut :=
  if period ∉ (["annual", "quarter"] : List String) then
    ⟨.ok (.int 0), [], [.invalidPeriod period]⟩
  else
    match (report_type_dict c.apikey symbol period limit).lookup report_type with
    | none =>
        ⟨.ok (.table (renameZeroInfo DataFrame.empty)), [],
         [.invalidReportType report_type]⟩
    | some urls =>
        let endpoint :=
          if as_reported && report_type != "full_statement" then urls.getD 1 ""
          else urls.getD 0 ""
        runFetch t endpoint (fun data =>
          match fromDict data with
          | .ok df => (.ok (.table (renameZeroInfo df)), [])
          | .error _ => (.ok (.table DataFrame.empty), [.rawData data]))

/-- The `asset_type_dict` of `get_instruments`. -/
def asset_type_dict (apikey : String) : List (String × String) :=
  [("forex",
    withKey "https://financialmodelingprep.com/api/v3/symbol/available-forex-currency-pairs?" apikey),
   ("stock",
    withKey "https://financialmodelingprep.com/api/v3/stock/list?" apikey),
   ("commodities",
    withKey "https://financialmodelingprep.com/api/v3/symbol/available-commodities?" apikey),
   ("crypto",
    withKey "https://financialmodelingprep.com/api/v3/symbol/available-cryptocurrencies?" apikey)]

/-- Model of `get_instruments`.  Here `df` is initialised to the bare
`pd.DataFrame` class (no parentheses in the source), so a `ValueError` while
shaping leaves the class object as the returned value; an unknown asset type
is caught before any request and `from_dict(None)` rebinds `df` to an empty
frame. -/
def get_instruments (c : Client) (t : Transport) (asset_type : String) : FetchOut :=
  match (asset_type_dict c.apikey).lookup asset_type with
  | none => ⟨.ok (.table DataFrame.empty), [], [.invalidAssetType asset_type]⟩
  | some endpoint =>
      runFetch t endpoint (fun data =>
        match fromDict data with
        | .ok df => (.ok (.table df), [])
        | .error _ => (.ok .dfClass, [.rawData data]))

/-- The `market_type_dict` of `get_market_news`: general and ticker-filtered
URL per market; a `None` symbol is interpolated by the f-string as the text
`None` (the filtered URL is only selected when a symbol is present). -/
def market_type_dict (apikey : String) (symbol : Option String) (limit : Int) :
    List (String × List String) :=
  let symStr := match symbol with | some s => s | none => "None"
  [("stock",
    [withKey ("https://financialmodelingprep.com/api/v3/stock_news?limit="
       ++ toString limit ++ "&") apikey,
     withKey ("https://financialmodelingprep.com/api/v3/stock_news?tickers="
       ++ symStr ++ "&limit=" ++ toString limit ++ "&") apikey]),
   ("forex",
    [withKey ("https://financialmodelingprep.com/api/v4/forex_news?limit="
       ++ toString limit ++ "&") apikey,
     withKey ("https://financialmodelingprep.com/api/v4/forex_news?symbol="
       ++ symStr ++ "&limit=" ++ toString limit ++ "&") apikey]),
   ("crypto",
    [withKey ("https://financialmodelingprep.com/api/v4/crypto_news?limit="
       ++ toString limit ++ "&") apikey,
     withKey ("https://financialmodelingprep.com/api/v4/crypto_news?symbol="
       ++ symStr ++ "&limit=" ++ toString limit ++ "&") apikey])]

/-- Model of `get_market_news`; like `get_instruments`, `df` starts as the
bare class object, so an unparseable body returns the class. -/
def get_market_news (c : Client) (t : Transport) (market_type : String)
    (symbol : Option String) (limit : Int) : FetchOut :=
  match (market_type_dict c.apikey symbol limit).lookup market_type with
  | none => ⟨.ok (.table DataFrame.empty), [], [.invalidMarketType market_type]⟩
  | some urls =>
      let endpoint := if symbol.isSome then urls.getD 1 "" else urls.getD 0 ""
      runFetch t endpoint (fun data =>
        match fromDict data with
        | .ok df => (.ok (.table df), [])
        | .error _ => (.ok .dfClass, [.rawData data]))

/-- The tail of `get_daily_prices` after the shaping `try` block: tag the
frame with the instrument, read the `date` column (a `KeyError` here is not
caught), convert it and make it the index. -/
def finishDaily (prints : List PrintEvent) (df0 : DataFrame) (symbol : String) :
    FetchStep :=
  let df1 := df0.attrsSet "instrument" (.str symbol)
  match df1.getCol (.str "date") with
  | .error e => (.error e, prints)
  | .ok dates =>
      (.ok (.table ((df1.setCol (.str "date")
          (dates.map toDatetime)).set_index (.str "date"))),
       prints)

/-- Model of `get_daily_prices`.  The request is not inside any handler, so
transport and JSON-decoding failures propagate; `data['historical']` raising
`KeyError`/`TypeError` propagates too (only `ValueError` is caught); after a
caught `ValueError` the empty frame reaches `df['date']`, which raises an
uncaught `KeyError`. -/
def get_daily_prices (c : Client) (t : Transport) (symbol : String) : FetchOut :=
  let endpoint := withKey ("https://financialmodelingprep.com/api/v3/historical-price-full/"
    ++ symbol ++ "?") c.apikey
  runFetch t endpoint (fun data =>
    match jsonGet data "historical" with
    | .error e => (.error e, [])
    | .ok hist =>
      match fromDict hist with
      | .ok df0 => finishDaily [] df0 symbol
      | .error _ => finishDaily [.rawData data] DataFrame.empty symbol)

/-- Model of `get_sentiment`: one request, shape, `ValueError` caught with
the raw body printed and the empty frame returned. -/
def get_sentiment (c : Client) (t : Transport) (symbol : String) (limit : Int) :
    FetchOut :=
  let endpoint := withKey ("https://financialmodelingprep.com/api/v4/historical/social-sentiment?symbol="
    ++ symbol ++ "&limit=" ++ toString limit ++ "&") c.apikey
  runFetch t endpoint (fun data =>
    match fromDict data with
    | .ok df => (.ok (.table df), [])
    | .error _ => (.ok (.table DataFrame.empty), [.rawData data]))

/-- Title of the rendered figure, one field per interpolated piece of the
source's title f-string. -/
structure ChartTitle where
  chart_type : String
  symbol : Value
  interval : Value
  startLabel : Value
  endLabel : Value
deriving DecidableEq, Repr

/-- Plotly traces the source adds to the figure. -/
inductive Trace where
  | bar (x : List Value) (y : List Value) (nm : String)
  | candlestick (x o h l cl : List Value) (nm : Value)
  | scatter (x y : List Value) (nm : Value)
  | ohlcBars (x o h l cl : List Value) (nm : Value)
deriving DecidableEq, Repr

/-- The rendered figure: its title and its traces (volume bar, then the main
price trace). -/
structure Figure where
  title : ChartTitle
  traces : List Trace
deriving DecidableEq, Repr

/-- Instrumented outcome of `draw_chart`: the return value, the prints, the
figures shown, and the caller's dataframe as it stands after the call. -/
structure DrawOut where
  result : Except PyError PyVal
  prints : List PrintEvent
  shown : List Figure
  dfAfter : DataFrame

/-- Lexicographic comparison of character lists by code point. -/
def charListLe : List Char → List Char → Bool
  | [], _ => true
  | _ :: _, [] => false
  | a :: as, b :: bs =>
      if a.toNat < b.toNat then true
      else if b.toNat < a.toNat then false
      else charListLe as bs

/-- Lexicographic string order by code point; on ISO `yyyy-MM-dd` dates this
is exactly the chronological order of the timestamps they parse to. -/
def strLe (a b : String) : Bool := charListLe a.data b.data

/-- Whether a row label falls in the (inclusive) date window: pandas label
slicing on a datetime index, with ISO strings standing for the parsed
timestamps. -/
def inDateRange (lo hi : Option String) (v : Value) : Bool :=
  match v with
  | .str d =>
      (match lo with | some s => strLe s d | none => true) &&
      (match hi with | some e => strLe d e | none => true)
  | _ => false

/-- Model of `df.loc[lo:hi]` on a date-labelled frame: keep the rows whose
label lies in the closed window; `attrs` metadata is propagated. -/
def DataFrame.locRange (df : DataFrame) (lo hi : Option String) : DataFrame :=
  let keep := (df.index.zip df.rows).filter (fun p => inDateRange lo hi p.1)
  ⟨keep.map Prod.fst, df.columns, keep.map Prod.snd, df.attrs⟩

/-- The date-range selection block of `draw_chart` (its four `if` branches
on `start`/`end`). -/
def sliceForChart (df : DataFrame) (start end_ : Option String) : DataFrame :=
  match start, end_ with
  | some s, none => df.locRange (some s) none
  | none, some e => df.locRange none (some e)
  | some s, some e => df.locRange (some s) (some e)
  | none, none => df

/-- The valid chart kinds of `draw_chart`. -/
def validChartTypes : List String := ["candle", "line", "ohlc"]

/-- The main price trace of `draw_chart`: the per-kind column reads, in the
source's order (a missing column raises `KeyError`). -/
def mainTrace (chart_type : String) (dfp : DataFrame) (symv : Value) :
    Except PyError Trace :=
  if chart_type = "candle" then do
    let o ← dfp.getCol (.str "open")
    let hg ← dfp.getCol (.str "high")
    let lw ← dfp.getCol (.str "low")
    let cl ← dfp.getCol (.str "close")
    pure (.candlestick dfp.index o hg lw cl symv)
  else if chart_type = "line" then do
    let cl ← dfp.getCol (.str "close")
    pure (.scatter dfp.index cl symv)
  else do
    let o ← dfp.getCol (.str "open")
    let hg ← dfp.getCol (.str "high")
    let lw ← dfp.getCol (.str "low")
    let cl ← dfp.getCol (.str "close")
    pure (.ohlcBars dfp.index o hg lw cl symv)

/-- Model of `draw_chart`.  An invalid kind prints the options and returns
the Python integer `0` before anything else; `df.index[0]`/`df.index[-1]`
raise `IndexError` on an empty frame; the instrument tag is read from the
sliced frame's `attrs` (`KeyError` when absent); the volume bar is added
before the main trace; the built figure is shown and `None` is returned.
The input frame is only read, never written, so `dfAfter` is the frame the
caller passed in. -/
def draw_chart (df : DataFrame) (start end_ : Option String)
    (chart_type : String) : DrawOut :=
  if chart_type ∉ validChartTypes then
    ⟨.ok (.int 0), [.invalidChartType chart_type], [], df⟩
  else
    match df.index.head?, df.index.getLast? with
    | some firstLabel, some lastLabel =>
      let df_plot := sliceForChart df start end_
      let startLabel := match start with | some s => Value.str s | none => firstLabel
      let endLabel := match end_ with | some e => Value.str e | none => lastLabel
      match df_plot.attrs.lookup "instrument" with
      | none => ⟨.error (.keyError (.str "instrument")), [], [], df⟩
      | some symv =>
        let interval := (df_plot.attrs.lookup "interval").getD (.str "daily")
        let title : ChartTitle := ⟨chart_type, symv, interval, startLabel, endLabel⟩
        match df_plot.getCol (.str "volume") with
        | .error e => ⟨.error e, [], [], df⟩
        | .ok vol =>
          match mainTrace chart_type df_plot symv with
          | .error e => ⟨.error e, [], [], df⟩
          | .ok tr =>
            ⟨.ok .pynone, [],
             [⟨title, [.bar df_plot.index vol "volume", tr]⟩], df⟩
    | _, _ => ⟨.error .indexError, [], [], df⟩

/-- A transport on which every request fails at the connection level. -/
def tFail : Transport := fun _ => .error .connectionError

/-- A URL carries the credential as its `apikey` query parameter value. -/
def hasApikey (url key : String) : Prop := ∃ p, url = p ++ ("apikey=" ++ key)

theorem withKey_hasApikey (pre key : String) : hasApikey (withKey pre key) key :=
  ⟨pre, (String.append_assoc pre "apikey=" key)⟩

theorem runFetch_requests (t : Transport) (e : String) (f : Json → FetchStep) :
    (runFetch t e f).requests = [e] := by
  unfold runFetch
  cases ht : t e with
  | error err => rfl
  | ok r => cases hb : r.jsonBody <;> simp [hb]

theorem runFetch_congr (t1 t2 : Transport) (e : String) (f : Json → FetchStep)
    (h : t1 e = t2 e) : runFetch t1 e f = runFetch t2 e f := by
  unfold runFetch
  rw [h]

theorem lookup_none_of_not_mem {β : Type} (k : String) (l : List (String × β))
    (h : k ∉ l.map Prod.fst) : l.lookup k = none := by
  induction l with
  | nil => rfl
  | cons p rest ih =>
      simp only [List.map_cons, List.mem_cons, not_or] at h
      have hne : (k == p.1) = false := beq_eq_false_iff_ne.mpr h.1
      simp [List.lookup, hne, ih h.2]

theorem mem_values_of_lookup {β : Type} {k : String} {l : List (String × β)}
    {e : β} (h : l.lookup k = some e) : e ∈ l.map Prod.snd := by
  induction l with
  | nil => simp [List.lookup] at h
  | cons p rest ih =>
      simp only [List.lookup] at h
      cases hk : (k == p.1) with
      | false => simp only [hk] at h; simp [ih h]
      | true => simp only [hk] at h; simp at h; simp [h]

end Fmp

/-- Claim C2: for every valid selector combination `get_financial_data`
constructs the URL with the as-reported/period/limit substitutions; in
particular `get_financial_data("AAPL", report_type="income_statement",
period="quarter", limit=5, as_reported=True)` requests exactly the
as-reported income-statement endpoint
`/api/v3/income-statement-as-reported/AAPL` with `period=quarter&limit=5`. -/
theorem C2_financial_url_construction :
    (∀ (key : String) (t : Fmp.Transport),
      (Fmp.get_financial_data ⟨key⟩ t "AAPL" "income_statement" "quarter" 5 true).requests
        = ["https://financialmodelingprep.com/api/v3/income-statement-as-reported/AAPL?period=quarter&limit=5&apikey="
           ++ key])
    ∧ (∀ (c : Fmp.Client) (t : Fmp.Transport) (s p : String) (l : Int) (ar : Bool),
        p = "annual" ∨ p = "quarter" →
          (Fmp.get_financial_data c t s "income_statement" p l ar).requests
            = [Fmp.withKey ("https://financialmodelingprep.com/api/v3/income-statement"
                ++ (if ar then "-as-reported" else "") ++ "/" ++ s ++ "?period=" ++ p
                ++ "&limit=" ++ toString l ++ "&") c.apikey]
          ∧ (Fmp.get_financial_data c t s "balance_statement" p l ar).requests
            = [Fmp.withKey ("https://financialmodelingprep.com/api/v3/balance-sheet-statement"
                ++ (if ar then "-as-reported" else "") ++ "/" ++ s ++ "?period=" ++ p
                ++ "&limit=" ++ toString l ++ "&") c.apikey]
          ∧ (Fmp.get_financial_data c t s "cashflow_statement" p l ar).requests
            = [Fmp.withKey ("https://financialmodelingprep.com/api/v3/cash-flow-statement"
                ++ (if ar then "-as-reported" else "") ++ "/" ++ s ++ "?period=" ++ p
                ++ "&limit=" ++ toString l ++ "&") c.apikey]
          ∧ (Fmp.get_financial_data c t s "full_statement" p l ar).requests
            = [Fmp.withKey ("https://financialmodelingprep.com/api/v3/financial-statement-full-as-reported/"
                ++ s ++ "?period=" ++ p ++ "&limit=" ++ toString l ++ "&") c.apikey]) := by
  constructor
  · intro key t
    unfold Fmp.get_financial_data
    simp [Fmp.report_type_dict, List.lookup, Fmp.runFetch_requests, Fmp.withKey]
    rfl
  · intro c t s p l ar hp
    rcases hp with rfl | rfl <;> rcases ar <;>
      refine ⟨?_, ?_, ?_, ?_⟩ <;>
      (unfold Fmp.get_financial_data;
       simp [Fmp.report_type_dict, List.lookup, Fmp.runFetch_requests, Fmp.withKey])

/-- Witness for C2 at a concrete input. -/
theorem C2_financial_url_construction_witness :
    (Fmp.get_financial_data ⟨"KEY"⟩ Fmp.tFail "AAPL" "income_statement" "quarter" 5 true).requests
      = ["https://financialmodelingprep.com/api/v3/income-statement-as-reported/AAPL?period=quarter&limit=5&apikey=KEY"] := by
  have h := C2_financial_url_construction.1 "KEY" Fmp.tFail
  simpa using h


/-- Claim C7: for report type `full_statement` the `as_reported` flag is
ignored: for every symbol, period, limit and transport the whole observable
outcome of `get_financial_data` (returned value, requested URL, prints) is
the same with the flag set and cleared, since the single full-statement
template is used either way. -/
theorem C7_full_statement_ignores_as_reported
    (c : Fmp.Client) (t : Fmp.Transport) (s p : String) (l : Int) :
    Fmp.get_financial_data c t s "full_statement" p l true
      = Fmp.get_financial_data c t s "full_statement" p l false := by
  unfold Fmp.get_financial_data
  simp [Fmp.report_type_dict, List.lookup]

/-- Claim C10: `draw_chart` never modifies its input table: whatever the date
range and chart kind (valid or not), the caller's dataframe — index, columns,
rows and attached metadata — is unchanged after the call; the range
selection derives a fresh view and the renderer only reads from it. -/
theorem C10_draw_chart_preserves_input
    (df : Fmp.DataFrame) (start end_ : Option String) (ct : String) :
    (Fmp.draw_chart df start end_ ct).dfAfter = df := by
  unfold Fmp.draw_chart
  repeat' first
  | rfl
  | split
  | dsimp only

namespace Fmp

theorem zip_filter_map_fst {α β : Type} (p : α → Bool) :
    ∀ (a : List α) (b : List β), a.length = b.length →
      ((a.zip b).filter (fun x => p x.1)).map Prod.fst = a.filter p := by
  intro a
  induction a with
  | nil => intro b _; rfl
  | cons x xs ih =>
      intro b h
      cases b with
      | nil => simp at h
      | cons y ys =>
          simp only [List.zip_cons_cons, List.filter_cons]
          cases hp : p x <;>
            simp [hp, ih ys (by simpa using h)]

/-- A ten-day daily price series 2023-01-01 .. 2023-01-10, tagged with the
instrument `AAPL`; row for day `d` holds the value `d` in all five fields. -/
def df10 : DataFrame :=
  ⟨[.str "2023-01-01", .str "2023-01-02", .str "2023-01-03", .str "2023-01-04",
    .str "2023-01-05", .str "2023-01-06", .str "2023-01-07", .str "2023-01-08",
    .str "2023-01-09", .str "2023-01-10"],
   [.str "open", .str "high", .str "low", .str "close", .str "volume"],
   [[.num 1, .num 1, .num 1, .num 1, .num 1],
    [.num 2, .num 2, .num 2, .num 2, .num 2],
    [.num 3, .num 3, .num 3, .num 3, .num 3],
    [.num 4, .num 4, .num 4, .num 4, .num 4],
    [.num 5, .num 5, .num 5, .num 5, .num 5],
    [.num 6, .num 6, .num 6, .num 6, .num 6],
    [.num 7, .num 7, .num 7, .num 7, .num 7],
    [.num 8, .num 8, .num 8, .num 8, .num 8],
    [.num 9, .num 9, .num 9, .num 9, .num 9],
    [.num 10, .num 10, .num 10, .num 10, .num 10]],
   [("instrument", .str "AAPL")]⟩

end Fmp

/-- Claim C4: `draw_chart` selects rows as an inclusive date range.  On every
date-indexed series (string-dated labels, one label per row) the selection
block keeps exactly the rows whose label satisfies the closed-interval
predicate — start-only slices to the series end, end-only from the series
start, both give the closed interval, neither gives the full series — and on
the concrete series 2023-01-01..2023-01-10 with `start="2023-01-02"`,
`end=None` it keeps 2023-01-02 through 2023-01-10 inclusive. -/
theorem C4_draw_chart_range_selection :
    (∀ (df : Fmp.DataFrame) (lo hi : Option String),
      df.index.length = df.rows.length →
      (∀ v ∈ df.index, ∃ d, v = Fmp.Value.str d) →
      (Fmp.sliceForChart df lo hi).index
          = df.index.filter (Fmp.inDateRange lo hi)
        ∧ (Fmp.sliceForChart df lo hi).rows
          = ((df.index.zip df.rows).filter
              (fun x => Fmp.inDateRange lo hi x.1)).map Prod.snd)
    ∧ (Fmp.sliceForChart Fmp.df10 (some "2023-01-02") none).index
        = [.str "2023-01-02", .str "2023-01-03", .str "2023-01-04",
           .str "2023-01-05", .str "2023-01-06", .str "2023-01-07",
           .str "2023-01-08", .str "2023-01-09", .str "2023-01-10"]
    ∧ (Fmp.sliceForChart Fmp.df10 (some "2023-01-02") none).rows
        = Fmp.df10.rows.drop 1 := by
  refine ⟨?_, by decide, by decide⟩
  intro df lo hi hlen hdate
  have hfilter : ∀ (l : Option String) (h : Option String),
      ((df.index.zip df.rows).filter (fun x => Fmp.inDateRange l h x.1)).map Prod.fst
        = df.index.filter (Fmp.inDateRange l h) :=
    fun l h => Fmp.zip_filter_map_fst _ df.index df.rows hlen
  have hall : ∀ x ∈ df.index.zip df.rows, Fmp.inDateRange none none x.1 = true := by
    intro x hx
    obtain ⟨d, hd⟩ := hdate x.1 (List.of_mem_zip hx).1
    rw [hd]
    rfl
  cases lo <;> cases hi
  · refine ⟨?_, ?_⟩
    · show df.index = df.index.filter (Fmp.inDateRange none none)
      rw [List.filter_eq_self.mpr]
      intro v hv
      obtain ⟨d, hd⟩ := hdate v hv
      rw [hd]
      rfl
    · show df.rows = ((df.index.zip df.rows).filter
        (fun x => Fmp.inDateRange none none x.1)).map Prod.snd
      rw [List.filter_eq_self.mpr hall, List.map_snd_zip df.index df.rows hlen.ge]
  · exact ⟨hfilter none _, rfl⟩
  · exact ⟨hfilter _ none, rfl⟩
  · exact ⟨hfilter _ _, rfl⟩

/-- Witness for C4 at a concrete input. -/
theorem C4_draw_chart_range_selection_witness :
    (Fmp.sliceForChart Fmp.df10 (some "2023-01-02") none).index
        = Fmp.df10.index.filter (Fmp.inDateRange (some "2023-01-02") none)
      ∧ (Fmp.sliceForChart Fmp.df10 (some "2023-01-02") none).rows
        = ((Fmp.df10.index.zip Fmp.df10.rows).filter
            (fun x => Fmp.inDateRange (some "2023-01-02") none x.1)).map Prod.snd :=
  C4_draw_chart_range_selection.1 Fmp.df10 (some "2023-01-02") none (by decide)
    (by
      intro v hv
      simp only [Fmp.df10, List.mem_cons, List.not_mem_nil, or_false] at hv
      rcases hv with rfl | rfl | rfl | rfl | rfl | rfl | rfl | rfl | rfl | rfl <;>
        exact ⟨_, rfl⟩)

namespace Fmp

/-- The response body of the C5 literal example: one historical record. -/
def daily5Body : Json :=
  .obj [("historical", .arr [ .obj
    [("date", .str "2023-01-03"), ("open", .num 1), ("high", .num 2),
     ("low", .num (1/2)), ("close", .num (3/2)), ("volume", .num 100)] ])]

/-- A transport answering every request with `daily5Body` and status 200. -/
def tDaily5 : Transport := fun _ => .ok ⟨200, some daily5Body⟩

/-- A body whose `historical` member is a dict of scalars: `from_dict` on the
member raises `ValueError`, while `from_dict` on the whole body is the
documented dict-of-dicts form and builds a 1x1 frame. -/
def badShapeBody : Json := .obj [("historical", .obj [("a", .num 1)])]

/-- A transport answering every request with `badShapeBody` and status 200. -/
def tBadShape : Transport := fun _ => .ok ⟨200, some badShapeBody⟩

/-- A body that is a dict of scalars: `from_dict` on it raises `ValueError`
(pandas: "If using all scalar values, you must pass an index"). -/
def scalarsBody : Json := .obj [("a", .num 1)]

/-- A transport answering every request with `scalarsBody` and status 200. -/
def tScalars : Transport := fun _ => .ok ⟨200, some scalarsBody⟩

/-- A transport answering every request with status 200 and a JSON `null`
body. -/
def tOk200 : Transport := fun _ => .ok ⟨200, some .null⟩

/-- A transport answering every request with status 500 and a body that is
not JSON (so `.json()` raises on it). -/
def tBad500 : Transport := fun _ => .ok ⟨500, none⟩

end Fmp

/-- Claim C5: `get_daily_prices("AAPL")` on the response
`{"historical":[{"date":"2023-01-03","open":1,"high":2,"low":0.5,"close":1.5,
"volume":100}]}` returns a table with exactly one row, whose index is the
parsed date 2023-01-03 (`date` is the index, not a column), and which
carries the instrument identifier `AAPL` in the out-of-band `attrs`
metadata; nothing is printed. -/
theorem C5_daily_prices_single_row :
    (Fmp.get_daily_prices ⟨"KEY"⟩ Fmp.tDaily5 "AAPL").result
      = Except.ok (Fmp.PyVal.table
          ⟨[.str "2023-01-03"],
           [.str "open", .str "high", .str "low", .str "close", .str "volume"],
           [[.num 1, .num 2, .num (1/2), .num (3/2), .num 100]],
           [("instrument", .str "AAPL")]⟩)
    ∧ (Fmp.get_daily_prices ⟨"KEY"⟩ Fmp.tDaily5 "AAPL").prints = [] := by
  exact ⟨rfl, rfl⟩

/-- Claim C3 is contradicted by `get_daily_prices`: on a response whose
`historical` member cannot be coerced to a table (`{"historical":{"a":1}}`,
whose member is an all-scalar dict, so `from_dict` on it raises
`ValueError`), the caught `ValueError` does print the raw body, but the
subsequent `df['date']` read on the still-empty frame raises an uncaught
`KeyError` instead of returning the empty table.  `get_sentiment` on a body
`from_dict` rejects (an all-scalar dict) does follow the claimed policy
(prints the raw body, returns the empty table); on the dict-of-dicts body
itself `from_dict` succeeds and `get_sentiment` returns the resulting 1x1
frame with nothing printed. -/
theorem C3_daily_prices_unparseable_raises :
    (Fmp.get_daily_prices ⟨"KEY"⟩ Fmp.tBadShape "AAPL").result
      = Except.error (Fmp.PyError.keyError (.str "date"))
    ∧ (Fmp.get_daily_prices ⟨"KEY"⟩ Fmp.tBadShape "AAPL").prints
      = [.rawData Fmp.badShapeBody]
    ∧ (Fmp.get_sentiment ⟨"KEY"⟩ Fmp.tScalars "AAPL" 10).result
      = Except.ok (Fmp.PyVal.table Fmp.DataFrame.empty)
    ∧ (Fmp.get_sentiment ⟨"KEY"⟩ Fmp.tScalars "AAPL" 10).prints
      = [.rawData Fmp.scalarsBody]
    ∧ (Fmp.get_sentiment ⟨"KEY"⟩ Fmp.tBadShape "AAPL" 10).result
      = Except.ok (Fmp.PyVal.table
          ⟨[.str "a"], [.str "historical"], [[.num 1]], []⟩)
    ∧ (Fmp.get_sentiment ⟨"KEY"⟩ Fmp.tBadShape "AAPL" 10).prints = [] := by
  exact ⟨rfl, rfl, rfl, rfl, rfl, rfl⟩

/-- Claim C6 is falsified at two concrete inputs: a transport-level failure
of the probe propagates out of the constructor (no client object is
produced), as does the `.json()` decoding failure on a non-200 response with
a non-JSON body. -/
theorem C6_counterexample :
    (Fmp.init "KEY" Fmp.tFail).result = Except.error Fmp.PyError.connectionError
    ∧ (Fmp.init "KEY" Fmp.tBad500).result
      = Except.error Fmp.PyError.jsonDecodeError := by
  exact ⟨rfl, rfl⟩

/-- Claim C6, amended: construction never blocks on the probe's outcome when
the transport delivers a response that is a 200, or whose body is JSON: the
outcome is only logged and the client object carrying the given credential
is always produced; only the probe request itself is issued.  (A transport
exception or a non-JSON body on a non-200 response, however, propagates —
see the counterexample.) -/
theorem C6_init_logs_probe_and_returns_client :
    ∀ (k : String) (t : Fmp.Transport) (r : Fmp.Response),
      t (Fmp.probeUrl k) = Except.ok r →
      (r.status = 200 ∨ r.jsonBody.isSome = true) →
      (Fmp.init k t).result = Except.ok ⟨k⟩
      ∧ (Fmp.init k t).requests = [Fmp.probeUrl k] := by
  intro k t r ht h
  unfold Fmp.init
  simp only [ht]
  by_cases h200 : r.status = 200
  · rw [if_pos h200]
    exact ⟨rfl, rfl⟩
  · rw [if_neg h200]
    rcases h with h' | hjson
    · exact absurd h' h200
    · obtain ⟨j, hj⟩ := Option.isSome_iff_exists.mp hjson
      rw [hj]
      exact ⟨rfl, rfl⟩

/-- Witness for the amended C6 at a concrete input. -/
theorem C6_init_logs_probe_and_returns_client_witness :
    (Fmp.init "KEY" Fmp.tOk200).result = Except.ok ⟨"KEY"⟩
    ∧ (Fmp.init "KEY" Fmp.tOk200).requests = [Fmp.probeUrl "KEY"] :=
  C6_init_logs_probe_and_returns_client "KEY" Fmp.tOk200 ⟨200, some Fmp.Json.null⟩
    rfl (Or.inl rfl)

/-- Claim C1 is falsified at a concrete input: `get_financial_data` with the
invalid period `monthly` does report the options and performs zero requests,
but it returns the Python integer `0`, which is not a (empty) tabular
result. -/
theorem C1_counterexample :
    (Fmp.get_financial_data ⟨"KEY"⟩ Fmp.tFail "AAPL" "balance_statement" "monthly" 10 false).result
      = Except.ok (Fmp.PyVal.int 0)
    ∧ Fmp.PyVal.isTable (Fmp.PyVal.int 0) = false
    ∧ Fmp.PyVal.isEmptyTable (Fmp.PyVal.int 0) = false
    ∧ (Fmp.get_financial_data ⟨"KEY"⟩ Fmp.tFail "AAPL" "balance_statement" "monthly" 10 false).requests
      = []
    ∧ (Fmp.get_financial_data ⟨"KEY"⟩ Fmp.tFail "AAPL" "balance_statement" "monthly" 10 false).prints
      = [.invalidPeriod "monthly"] := by
  exact ⟨rfl, rfl, rfl, rfl, rfl⟩

/-- Claim C1, amended: for every selector value outside the supported set,
each operation reports the invalid value with its valid option set and
performs zero network requests; it returns an empty tabular result, except
that `get_financial_data` with an invalid period and `draw_chart` with an
invalid chart kind return the Python integer `0` instead. -/
theorem C1_invalid_selector_local :
    (∀ (c : Fmp.Client) (t : Fmp.Transport) (s : String) (l : Int) (it : String),
      it ∉ (["company_profile", "company_rating", "historical_rating",
             "recommendations"] : List String) →
      Fmp.get_company_info c t s l it
        = ⟨Except.ok (Fmp.PyVal.table Fmp.DataFrame.empty), [],
           [.invalidInfoType it]⟩)
    ∧ (∀ (c : Fmp.Client) (t : Fmp.Transport) (s p : String) (l : Int) (ar : Bool),
      p ∉ (["annual", "quarter"] : List String) →
      ∀ rt : String, Fmp.get_financial_data c t s rt p l ar
        = ⟨Except.ok (Fmp.PyVal.int 0), [], [.invalidPeriod p]⟩)
    ∧ (∀ (c : Fmp.Client) (t : Fmp.Transport) (s rt p : String) (l : Int) (ar : Bool),
      p ∈ (["annual", "quarter"] : List String) →
      rt ∉ (["balance_statement", "income_statement", "cashflow_statement",
             "full_statement"] : List String) →
      Fmp.get_financial_data c t s rt p l ar
        = ⟨Except.ok (Fmp.PyVal.table Fmp.DataFrame.empty), [],
           [.invalidReportType rt]⟩)
    ∧ (∀ (c : Fmp.Client) (t : Fmp.Transport) (a : String),
      a ∉ (["forex", "stock", "commodities", "crypto"] : List String) →
      Fmp.get_instruments c t a
        = ⟨Except.ok (Fmp.PyVal.table Fmp.DataFrame.empty), [],
           [.invalidAssetType a]⟩)
    ∧ (∀ (c : Fmp.Client) (t : Fmp.Transport) (m : String) (sym : Option String) (l : Int),
      m ∉ (["stock", "forex", "crypto"] : List String) →
      Fmp.get_market_news c t m sym l
        = ⟨Except.ok (Fmp.PyVal.table Fmp.DataFrame.empty), [],
           [.invalidMarketType m]⟩)
    ∧ (∀ (df : Fmp.DataFrame) (start end_ : Option String) (ct : String),
      ct ∉ Fmp.validChartTypes →
      Fmp.draw_chart df start end_ ct
        = ⟨Except.ok (Fmp.PyVal.int 0), [.invalidChartType ct], [], df⟩) := by
  refine ⟨?_, ?_, ?_, ?_, ?_, ?_⟩
  · intro c t s l it h
    have hl : (Fmp.company_info_dict c.apikey s l).lookup it = none := by
      apply Fmp.lookup_none_of_not_mem
      simpa [Fmp.company_info_dict] using h
    have hni : it ∉ (["historical_rating", "recommendations"] : List String) := by
      intro hm
      apply h
      simp only [List.mem_cons, List.not_mem_nil, or_false] at hm ⊢
      rcases hm with rfl | rfl <;> simp
    unfold Fmp.get_company_info
    simp [hl, Fmp.companyShape, hni, Fmp.fromDict]
    rfl
  · intro c t s p l ar hp rt
    unfold Fmp.get_financial_data
    rw [if_pos hp]
  · intro c t s rt p l ar hp hrt
    have hl : (Fmp.report_type_dict c.apikey s p l).lookup rt = none := by
      apply Fmp.lookup_none_of_not_mem
      simpa [Fmp.report_type_dict] using hrt
    unfold Fmp.get_financial_data
    rw [if_neg (not_not_intro hp)]
    simp [hl]
    rfl
  · intro c t a h
    have hl : (Fmp.asset_type_dict c.apikey).lookup a = none := by
      apply Fmp.lookup_none_of_not_mem
      simpa [Fmp.asset_type_dict] using h
    unfold Fmp.get_instruments
    simp [hl]
  · intro c t m sym l h
    have hl : (Fmp.market_type_dict c.apikey sym l).lookup m = none := by
      apply Fmp.lookup_none_of_not_mem
      simpa [Fmp.market_type_dict] using h
    unfold Fmp.get_market_news
    simp [hl]
  · intro df start end_ ct h
    unfold Fmp.draw_chart
    rw [if_pos h]

/-- Witness for the amended C1 at concrete invalid selector values. -/
theorem C1_invalid_selector_local_witness :
    Fmp.get_company_info ⟨"KEY"⟩ Fmp.tFail "AAPL" 10 "bogus"
      = ⟨Except.ok (Fmp.PyVal.table Fmp.DataFrame.empty), [],
         [.invalidInfoType "bogus"]⟩
    ∧ Fmp.get_financial_data ⟨"KEY"⟩ Fmp.tFail "AAPL" "balance_statement" "monthly" 10 false
      = ⟨Except.ok (Fmp.PyVal.int 0), [], [.invalidPeriod "monthly"]⟩
    ∧ Fmp.get_financial_data ⟨"KEY"⟩ Fmp.tFail "AAPL" "bogus" "annual" 10 false
      = ⟨Except.ok (Fmp.PyVal.table Fmp.DataFrame.empty), [],
         [.invalidReportType "bogus"]⟩
    ∧ Fmp.get_instruments ⟨"KEY"⟩ Fmp.tFail "bogus"
      = ⟨Except.ok (Fmp.PyVal.table Fmp.DataFrame.empty), [],
         [.invalidAssetType "bogus"]⟩
    ∧ Fmp.get_market_news ⟨"KEY"⟩ Fmp.tFail "bogus" none 10
      = ⟨Except.ok (Fmp.PyVal.table Fmp.DataFrame.empty), [],
         [.invalidMarketType "bogus"]⟩
    ∧ Fmp.draw_chart Fmp.df10 none none "bogus"
      = ⟨Except.ok (Fmp.PyVal.int 0), [.invalidChartType "bogus"], [],
         Fmp.df10⟩ :=
  ⟨C1_invalid_selector_local.1 ⟨"KEY"⟩ Fmp.tFail "AAPL" 10 "bogus" (by decide),
   C1_invalid_selector_local.2.1 ⟨"KEY"⟩ Fmp.tFail "AAPL" "monthly" 10 false
     (by decide) "balance_statement",
   C1_invalid_selector_local.2.2.1 ⟨"KEY"⟩ Fmp.tFail "AAPL" "bogus" "annual" 10 false
     (by decide) (by decide),
   C1_invalid_selector_local.2.2.2.1 ⟨"KEY"⟩ Fmp.tFail "bogus" (by decide),
   C1_invalid_selector_local.2.2.2.2.1 ⟨"KEY"⟩ Fmp.tFail "bogus" none 10 (by decide),
   C1_invalid_selector_local.2.2.2.2.2 Fmp.df10 none none "bogus" (by decide)⟩

namespace Fmp

/-- The concrete sentiment endpoint for symbol `AAPL`, limit 10, key `KEY`. -/
def sentimentUrlKey : String :=
  withKey "https://financialmodelingprep.com/api/v4/historical/social-sentiment?symbol=AAPL&limit=10&" "KEY"

/-- A transport that answers only the concrete sentiment endpoint. -/
def tAgreeA : Transport := fun u =>
  if u = sentimentUrlKey then .ok ⟨200, some .null⟩ else .error .connectionError

/-- A transport that answers every request; it agrees with `tAgreeA` on the
concrete sentiment endpoint and differs everywhere else. -/
def tAgreeB : Transport := fun _ => .ok ⟨200, some .null⟩

end Fmp

/-- Claim C9: every fetch operation is deterministic in its arguments and
the remote response: its entire observable outcome (value, requests, prints)
depends on the transport only through the responses to the URLs it actually
requests, so two calls with identical arguments whose transports return
identical responses on those URLs yield identical results. -/
theorem C9_fetch_determinism :
    (∀ (c : Fmp.Client) (t1 t2 : Fmp.Transport) (s : String) (l : Int) (it : String),
      (∀ u ∈ (Fmp.get_company_info c t1 s l it).requests, t1 u = t2 u) →
      Fmp.get_company_info c t1 s l it = Fmp.get_company_info c t2 s l it)
    ∧ (∀ (c : Fmp.Client) (t1 t2 : Fmp.Transport) (s rt p : String) (l : Int) (ar : Bool),
      (∀ u ∈ (Fmp.get_financial_data c t1 s rt p l ar).requests, t1 u = t2 u) →
      Fmp.get_financial_data c t1 s rt p l ar = Fmp.get_financial_data c t2 s rt p l ar)
    ∧ (∀ (c : Fmp.Client) (t1 t2 : Fmp.Transport) (a : String),
      (∀ u ∈ (Fmp.get_instruments c t1 a).requests, t1 u = t2 u) →
      Fmp.get_instruments c t1 a = Fmp.get_instruments c t2 a)
    ∧ (∀ (c : Fmp.Client) (t1 t2 : Fmp.Transport) (s : String),
      (∀ u ∈ (Fmp.get_daily_prices c t1 s).requests, t1 u = t2 u) →
      Fmp.get_daily_prices c t1 s = Fmp.get_daily_prices c t2 s)
    ∧ (∀ (c : Fmp.Client) (t1 t2 : Fmp.Transport) (m : String) (sym : Option String) (l : Int),
      (∀ u ∈ (Fmp.get_market_news c t1 m sym l).requests, t1 u = t2 u) →
      Fmp.get_market_news c t1 m sym l = Fmp.get_market_news c t2 m sym l)
    ∧ (∀ (c : Fmp.Client) (t1 t2 : Fmp.Transport) (s : String) (l : Int),
      (∀ u ∈ (Fmp.get_sentiment c t1 s l).requests, t1 u = t2 u) →
      Fmp.get_sentiment c t1 s l = Fmp.get_sentiment c t2 s l) := by
  refine ⟨?_, ?_, ?_, ?_, ?_, ?_⟩
  · intro c t1 t2 s l it h
    unfold Fmp.get_company_info at h ⊢
    cases hl : (Fmp.company_info_dict c.apikey s l).lookup it with
    | none => simp only [hl]
    | some e =>
        simp only [hl] at h ⊢
        apply Fmp.runFetch_congr
        apply h
        rw [Fmp.runFetch_requests]
        exact List.mem_singleton.mpr rfl
  · intro c t1 t2 s rt p l ar h
    unfold Fmp.get_financial_data at h ⊢
    by_cases hp : p ∉ (["annual", "quarter"] : List String)
    · simp only [if_pos hp]
    · simp only [if_neg hp] at h ⊢
      cases hl : (Fmp.report_type_dict c.apikey s p l).lookup rt with
      | none => simp only [hl]
      | some urls =>
          simp only [hl] at h ⊢
          apply Fmp.runFetch_congr
          apply h
          rw [Fmp.runFetch_requests]
          exact List.mem_singleton.mpr rfl
  · intro c t1 t2 a h
    unfold Fmp.get_instruments at h ⊢
    cases hl : (Fmp.asset_type_dict c.apikey).lookup a with
    | none => simp only [hl]
    | some e =>
        simp only [hl] at h ⊢
        apply Fmp.runFetch_congr
        apply h
        rw [Fmp.runFetch_requests]
        exact List.mem_singleton.mpr rfl
  · intro c t1 t2 s h
    unfold Fmp.get_daily_prices at h ⊢
    apply Fmp.runFetch_congr
    apply h
    rw [Fmp.runFetch_requests]
    exact List.mem_singleton.mpr rfl
  · intro c t1 t2 m sym l h
    unfold Fmp.get_market_news at h ⊢
    cases hl : (Fmp.market_type_dict c.apikey sym l).lookup m with
    | none => simp only [hl]
    | some urls =>
        simp only [hl] at h ⊢
        apply Fmp.runFetch_congr
        apply h
        rw [Fmp.runFetch_requests]
        exact List.mem_singleton.mpr rfl
  · intro c t1 t2 s l h
    unfold Fmp.get_sentiment at h ⊢
    apply Fmp.runFetch_congr
    apply h
    rw [Fmp.runFetch_requests]
    exact List.mem_singleton.mpr rfl

/-- Witness for C9: two concrete transports that agree on the one endpoint
`get_sentiment` requests (and nowhere else) give identical outcomes. -/
theorem C9_fetch_determinism_witness :
    Fmp.get_sentiment ⟨"KEY"⟩ Fmp.tAgreeA "AAPL" 10
      = Fmp.get_sentiment ⟨"KEY"⟩ Fmp.tAgreeB "AAPL" 10 :=
  C9_fetch_determinism.2.2.2.2.2 ⟨"KEY"⟩ Fmp.tAgreeA Fmp.tAgreeB "AAPL" 10 (by
    intro u hu
    unfold Fmp.get_sentiment at hu
    rw [Fmp.runFetch_requests] at hu
    have hu' : u = Fmp.sentimentUrlKey := by
      simpa [Fmp.sentimentUrlKey, Fmp.withKey] using hu
    subst hu'
    simp [Fmp.tAgreeA, Fmp.tAgreeB])

namespace Fmp

theorem mem_of_lookup {β : Type} {k : String} {l : List (String × β)} {v : β}
    (h : l.lookup k = some v) : (k, v) ∈ l := by
  induction l with
  | nil => simp [List.lookup] at h
  | cons p rest ih =>
      simp only [List.lookup] at h
      cases hk : (k == p.1) with
      | false => simp only [hk] at h; exact List.mem_cons_of_mem _ (ih h)
      | true =>
          simp only [hk] at h
          simp at h
          have hk' : k = p.1 := eq_of_beq hk
          subst hk'
          subst h
          exact List.mem_cons_self _ _

end Fmp

/-- Claim C8: the credential supplied at construction is the one the client
carries for its whole lifetime (`init` returning a client returns it with
exactly the given key, and nothing ever rewrites it — every operation of the
model takes the client by value), and every URL requested by the constructor
probe and by every fetch operation carries that credential as its `apikey`
query parameter. -/
theorem C8_credential_on_every_request :
    (∀ (k : String) (t : Fmp.Transport) (cl : Fmp.Client),
      (Fmp.init k t).result = Except.ok cl → cl.apikey = k)
    ∧ (∀ (k : String) (t : Fmp.Transport) (u : String),
      u ∈ (Fmp.init k t).requests → Fmp.hasApikey u k)
    ∧ (∀ (c : Fmp.Client) (t : Fmp.Transport) (s : String) (l : Int) (it : String)
        (u : String),
      u ∈ (Fmp.get_company_info c t s l it).requests → Fmp.hasApikey u c.apikey)
    ∧ (∀ (c : Fmp.Client) (t : Fmp.Transport) (s rt p : String) (l : Int) (ar : Bool)
        (u : String),
      u ∈ (Fmp.get_financial_data c t s rt p l ar).requests → Fmp.hasApikey u c.apikey)
    ∧ (∀ (c : Fmp.Client) (t : Fmp.Transport) (a : String) (u : String),
      u ∈ (Fmp.get_instruments c t a).requests → Fmp.hasApikey u c.apikey)
    ∧ (∀ (c : Fmp.Client) (t : Fmp.Transport) (s : String) (u : String),
      u ∈ (Fmp.get_daily_prices c t s).requests → Fmp.hasApikey u c.apikey)
    ∧ (∀ (c : Fmp.Client) (t : Fmp.Transport) (m : String) (sym : Option String)
        (l : Int) (u : String),
      u ∈ (Fmp.get_market_news c t m sym l).requests → Fmp.hasApikey u c.apikey)
    ∧ (∀ (c : Fmp.Client) (t : Fmp.Transport) (s : String) (l : Int) (u : String),
      u ∈ (Fmp.get_sentiment c t s l).requests → Fmp.hasApikey u c.apikey) := by
  refine ⟨?_, ?_, ?_, ?_, ?_, ?_, ?_, ?_⟩
  · intro k t cl hres
    unfold Fmp.init at hres
    cases ht : t (Fmp.probeUrl k) with
    | error e => simp only [ht] at hres; simp at hres
    | ok r =>
        simp only [ht] at hres
        by_cases h2 : r.status = 200
        · rw [if_pos h2] at hres
          injection hres with h
          rw [← h]
        · rw [if_neg h2] at hres
          cases hb : r.jsonBody with
          | some j =>
              simp only [hb] at hres
              injection hres with h
              rw [← h]
          | none => simp only [hb] at hres; simp at hres
  · intro k t u hu
    unfold Fmp.init at hu
    cases ht : t (Fmp.probeUrl k) with
    | error e =>
        simp only [ht] at hu
        simp at hu
        subst hu
        exact Fmp.withKey_hasApikey _ _
    | ok r =>
        simp only [ht] at hu
        by_cases h2 : r.status = 200
        · rw [if_pos h2] at hu
          simp at hu
          subst hu
          exact Fmp.withKey_hasApikey _ _
        · rw [if_neg h2] at hu
          cases hb : r.jsonBody with
          | some j =>
              simp only [hb] at hu
              simp at hu
              subst hu
              exact Fmp.withKey_hasApikey _ _
          | none =>
              simp only [hb] at hu
              simp at hu
              subst hu
              exact Fmp.withKey_hasApikey _ _
  · intro c t s l it u hu
    unfold Fmp.get_company_info at hu
    cases hl : (Fmp.company_info_dict c.apikey s l).lookup it with
    | none =>
        simp only [hl] at hu
        cases hcs : Fmp.companyShape it Fmp.Json.null <;> simp [hcs] at hu
    | some e =>
        simp only [hl, Fmp.runFetch_requests] at hu
        simp at hu
        subst hu
        have hlp := Fmp.mem_of_lookup hl
        simp [Fmp.company_info_dict] at hlp
        rcases hlp with ⟨rfl, rfl⟩ | ⟨rfl, rfl⟩ | ⟨rfl, rfl⟩ | ⟨rfl, rfl⟩ <;>
          exact Fmp.withKey_hasApikey _ _
  · intro c t s rt p l ar u hu
    unfold Fmp.get_financial_data at hu
    by_cases hp : p ∉ (["annual", "quarter"] : List String)
    · rw [if_pos hp] at hu
      simp at hu
    · rw [if_neg hp] at hu
      cases hl : (Fmp.report_type_dict c.apikey s p l).lookup rt with
      | none => simp [hl] at hu
      | some urls =>
          simp only [hl, Fmp.runFetch_requests] at hu
          simp at hu
          subst hu
          have hlp := Fmp.mem_of_lookup hl
          simp [Fmp.report_type_dict] at hlp
          rcases hlp with ⟨rfl, rfl⟩ | ⟨rfl, rfl⟩ | ⟨rfl, rfl⟩ | ⟨rfl, rfl⟩ <;>
            cases ar <;> exact Fmp.withKey_hasApikey _ _
  · intro c t a u hu
    unfold Fmp.get_instruments at hu
    cases hl : (Fmp.asset_type_dict c.apikey).lookup a with
    | none => simp [hl] at hu
    | some e =>
        simp only [hl, Fmp.runFetch_requests] at hu
        simp at hu
        subst hu
        have hlp := Fmp.mem_of_lookup hl
        simp [Fmp.asset_type_dict] at hlp
        rcases hlp with ⟨rfl, rfl⟩ | ⟨rfl, rfl⟩ | ⟨rfl, rfl⟩ | ⟨rfl, rfl⟩ <;>
          exact Fmp.withKey_hasApikey _ _
  · intro c t s u hu
    unfold Fmp.get_daily_prices at hu
    rw [Fmp.runFetch_requests] at hu
    simp at hu
    subst hu
    exact Fmp.withKey_hasApikey _ _
  · intro c t m sym l u hu
    unfold Fmp.get_market_news at hu
    cases hl : (Fmp.market_type_dict c.apikey sym l).lookup m with
    | none => simp [hl] at hu
    | some urls =>
        simp only [hl, Fmp.runFetch_requests] at hu
        simp at hu
        subst hu
        have hlp := Fmp.mem_of_lookup hl
        simp [Fmp.market_type_dict] at hlp
        rcases hlp with ⟨rfl, rfl⟩ | ⟨rfl, rfl⟩ | ⟨rfl, rfl⟩ <;>
          cases sym <;> exact Fmp.withKey_hasApikey _ _
  · intro c t s l u hu
    unfold Fmp.get_sentiment at hu
    rw [Fmp.runFetch_requests] at hu
    simp at hu
    subst hu
    exact Fmp.withKey_hasApikey _ _

/-- Witness for C8 at a concrete input: the one URL `get_sentiment` requests
carries the client's key, and a constructed client carries the key it was
given. -/
theorem C8_credential_on_every_request_witness :
    Fmp.hasApikey Fmp.sentimentUrlKey "KEY"
    ∧ (⟨"KEY"⟩ : Fmp.Client).apikey = "KEY" :=
  ⟨C8_credential_on_every_request.2.2.2.2.2.2.2 ⟨"KEY"⟩ Fmp.tFail "AAPL" 10
      Fmp.sentimentUrlKey (List.mem_singleton.mpr rfl),
   C8_credential_on_every_request.1 "KEY" Fmp.tOk200 ⟨"KEY"⟩ rfl⟩
